import Mathlib

/-!
Verification of the stable-locator library (prober + waiter) against its
specification.  The TypeScript source is shallowly embedded: the in-page
evaluation, the `isStable` probe and the `waitForStable` polling loop become
pure Lean functions over explicit environments describing what the browser
collaborators (visibility query, element count, handle acquisition, in-page
evaluation, clock readings) return at each step.
-/

/-- A point-in-time geometry snapshot, as produced by getBoundingClientRect.
Numeric geometry values are modelled as rationals; the source compares them
with exact equality. -/
structure Rect where
  top : ℚ
  left : ℚ
  width : ℚ
  height : ℚ
deriving DecidableEq, Repr

/-- The four computed-style strings the in-page evaluation reads. -/
structure ComputedStyle where
  animationName : String
  animationPlayState : String
  transitionProperty : String
  transitionDuration : String
deriving DecidableEq, Repr

/-- One complete pair of samples taken by the in-page evaluation: the rect
before the 50ms settle delay, the rect after it, and the computed style. -/
structure EvalSample where
  initialRect : Rect
  newRect : Rect
  style : ComputedStyle
deriving DecidableEq, Repr

/-- The diagnostic record attached to a full probe verdict (source lines
233-252). -/
structure StabilitySample where
  hasActiveAnimation : Bool
  animationName : String
  animationPlayState : String
  transitionProperty : String
  transitionDuration : String
  positionChanged : Bool
  initialRect : Rect
  newRect : Rect
deriving DecidableEq, Repr

/-- The `details` payload of a probe result.  The source uses a free-form
object; the probe only ever produces these shapes. -/
inductive Details where
  /-- the JS object with exists set to false (source line 155) -/
  | notExists
  /-- the JS object with hasElementHandle set to false (source line 167) -/
  | noHandle
  /-- the JS object carrying an error string (source lines 268 and 276) -/
  | errorDetail (msg : String)
  /-- the full diagnostic record (source lines 233-252) -/
  | sample (s : StabilitySample)
  /-- the empty object, used when the evaluation returned a bare boolean
  (source line 261) -/
  | empty
deriving DecidableEq, Repr

/-- The value returned by the private isStable method:
a stable flag plus details (source line 149). -/
structure StabilityVerdict where
  stable : Bool
  details : Details
deriving DecidableEq, Repr

/-- The public result shape handed to a custom stability callback
(source interface StabilityCheckResult, lines 4-17). -/
structure StabilityCheckResult where
  isStable : Bool
  details : Details
deriving DecidableEq, Repr

/-- Source lines 207-209: an element has an active animation iff it has an
animation name other than "none" that is not paused, or a transition on a
specific property (not "all" or "none") with non-zero duration. -/
def hasActiveAnimation (animationName animationPlayState transitionProperty transitionDuration : String) : Bool :=
  (animationName != "none" && animationPlayState != "paused") ||
  (transitionProperty != "all" && transitionProperty != "none" && transitionDuration != "0s")

/-- Source lines 212-216: the position changed iff any of the four rect
fields differ between the two samples, under exact equality. -/
def positionChanged (initialRect newRect : Rect) : Bool :=
  initialRect.top != newRect.top ||
  initialRect.left != newRect.left ||
  initialRect.width != newRect.width ||
  initialRect.height != newRect.height

/-- The in-page evaluation (source lines 178-254) applied to one completed
pair of samples: computes the animation flag and geometry diff and returns
the verdict with the full diagnostic record attached (lines 230-253). -/
def evaluateStability (s : EvalSample) : StabilityVerdict :=
  let hAA := hasActiveAnimation s.style.animationName s.style.animationPlayState
      s.style.transitionProperty s.style.transitionDuration
  let pC := positionChanged s.initialRect s.newRect
  { stable := !hAA && !pC,
    details := Details.sample
      { hasActiveAnimation := hAA,
        animationName := s.style.animationName,
        animationPlayState := s.style.animationPlayState,
        transitionProperty := s.style.transitionProperty,
        transitionDuration := s.style.transitionDuration,
        positionChanged := pC,
        initialRect := s.initialRect,
        newRect := s.newRect } }

/-- What the raced in-page evaluation produced (source lines 177-258):
either the detailed object, a bare boolean, the 2s race timer winning with
the error whose toString is "Error: Evaluate timeout" (line 256), or some
other rejection whose toString is the given message. -/
inductive EvalOutcome where
  | ok (s : EvalSample)
  | okBool (b : Bool)
  | timeout
  | error (msg : String)
deriving Repr

/-- One probe's collaborator environment: what locator.count() returns (or
the message of the error it throws, caught at source line 274), whether
elementHandle acquisition yielded a handle (the catch at line 160 turns
failures into null), and what the raced evaluation produced. -/
structure ProbeEnv where
  countResult : Except String Nat
  handleAcquired : Bool
  evalOutcome : EvalOutcome
deriving Repr

/-- The private isStable method (source lines 149-278) as a total function
of its collaborator environment.  Every failure path is caught and turned
into a verdict; the function never raises. -/
def isStable (env : ProbeEnv) : StabilityVerdict :=
  match env.countResult with
  | Except.error msg => { stable := false, details := Details.errorDetail msg }
  | Except.ok n =>
    if n > 0 then
      if env.handleAcquired then
        match env.evalOutcome with
        | EvalOutcome.ok s => evaluateStability s
        | EvalOutcome.okBool b => { stable := b, details := Details.empty }
        | EvalOutcome.timeout =>
            { stable := false, details := Details.errorDetail "Error: Evaluate timeout" }
        | EvalOutcome.error msg =>
            { stable := false, details := Details.errorDetail msg }
      else { stable := false, details := Details.noHandle }
    else { stable := false, details := Details.notExists }

/-- A caller-supplied custom stability callback, modelled by its interaction
tree with the default-check thunk: it either returns a boolean outright or
invokes the thunk and continues with the thunk's result (source option
field at line 23; invocation at lines 108-118). -/
inductive CustomFn where
  | ret (b : Bool)
  | callDefault (k : StabilityCheckResult → CustomFn)

/-- Runs a custom callback against a thunk whose every invocation yields the
given default-check result; returns the callback's boolean together with the
number of times the thunk (and hence the default probe) was invoked. -/
def runCustom : CustomFn → StabilityCheckResult → Bool × Nat
  | CustomFn.ret b, _ => (b, 0)
  | CustomFn.callDefault k, r =>
    let p := runCustom (k r) r
    (p.1, p.2 + 1)

/-- The wrapper handed to a custom callback (source lines 110-116): performs
the default probe and repackages its verdict as a StabilityCheckResult. -/
def defaultCheckWrapper (env : ProbeEnv) : StabilityCheckResult :=
  let result := isStable env
  { isStable := result.stable, details := result.details }

/-- The custom callback that just delegates to the default-check thunk. -/
def delegateFn : CustomFn :=
  CustomFn.callDefault (fun r => CustomFn.ret r.isStable)

/-- One loop iteration's collaborator environment: the visibility answer
(the catch at source line 97 has already turned query errors into false)
and the probe environment the default probe would see this iteration. -/
structure IterEnv where
  visible : Bool
  probeEnv : ProbeEnv
deriving Repr

/-- What one loop iteration body (source lines 93-137) did: the stability
verdict it reached (false also covers the invisible fast path), how many
times the default probe ran, and whether the custom callback was called. -/
structure IterResult where
  outcome : Bool
  probeCalls : Nat
  customCalled : Bool
deriving DecidableEq, Repr

/-- The body of one polling iteration (source lines 95-130): if the element
is not visible the iteration ends immediately without consulting any
stability check; otherwise the custom callback decides (when supplied) or
the default probe does. -/
def runIteration (customFn : Option CustomFn) (env : IterEnv) : IterResult :=
  if env.visible then
    match customFn with
    | some f =>
      let p := runCustom f (defaultCheckWrapper env.probeEnv)
      { outcome := p.1, probeCalls := p.2, customCalled := true }
    | none =>
      { outcome := (isStable env.probeEnv).stable, probeCalls := 1, customCalled := false }
  else
    { outcome := false, probeCalls := 0, customCalled := false }

/-- How one waitForStable call ends: a normal return from inside an
iteration, the thrown timeout error (carrying its message string), or the
model artifact for a run whose observation trace ended early. -/
inductive WaitResult where
  | success (checkCount : Nat)
  | timeoutError (message : String)
  | outOfTrace
deriving DecidableEq, Repr

/-- The message of the error thrown at source line 142.  It interpolates the
configured timeout and the check counter. -/
def timeoutMessage (timeout : Int) (checkCount : Nat) : String :=
  "Locator not stable after " ++ toString timeout ++ "ms (" ++
    toString checkCount ++ " checks)"

/-- The polling loop (source lines 92-142) over a trace of observations: each
trace entry gives the Date.now() reading at that loop-condition check and the
iteration's collaborator environment.  The condition at line 92 admits the
iteration while the reading minus startTime is below the timeout; once it
fails the loop throws with the current check count. -/
def waitLoop (timeout startTime : Int) (customFn : Option CustomFn) (checkCount : Nat) :
    List (Int × IterEnv) → WaitResult
  | [] => WaitResult.outOfTrace
  | (t, env) :: rest =>
    if t - startTime < timeout then
      if (runIteration customFn env).outcome then WaitResult.success (checkCount + 1)
      else waitLoop timeout startTime customFn (checkCount + 1) rest
    else
      WaitResult.timeoutError (timeoutMessage timeout checkCount)

/-- Source line 77: the effective timeout is options.timeout unless that is
absent or zero (falsy), in which case it is 30000. -/
def effectiveTimeout (timeout : Option Int) : Int :=
  match timeout with
  | none => 30000
  | some v => if v = 0 then 30000 else v

/-- The options record of waitForStable (source lines 20-24). -/
structure WaitForStableOptions where
  timeout : Option Int := none
  debug : Option Bool := none
  isStable : Option CustomFn := none

/-- The mutable per-instance state of a StableLocator (source line 46): the
locator itself is an external collaborator and carries no modelled state. -/
structure StableLocator where
  debugMode : Bool
deriving DecidableEq, Repr

/-- The constructor (source lines 48-51): the instance debug mode is the
explicit argument when given, otherwise the value the global
DEFAULT_DEBUG_MODE flag has at construction time. -/
def StableLocator.construct (defaultDebugMode : Bool) (debugArg : Option Bool) : StableLocator :=
  { debugMode := debugArg.getD defaultDebugMode }

/-- waitForStable (source lines 76-143): resolves the effective timeout,
overwrites the instance debug mode when options.debug is given (lines
81-83), then runs the polling loop.  Returns the updated instance state
together with the loop's outcome. -/
def waitForStable (st : StableLocator) (options : WaitForStableOptions)
    (startTime : Int) (trace : List (Int × IterEnv)) : StableLocator × WaitResult :=
  let timeout := effectiveTimeout options.timeout
  let st2 : StableLocator :=
    match options.debug with
    | some d => { debugMode := d }
    | none => st
  (st2, waitLoop timeout startTime options.isStable 0 trace)

/-- The debug-mode resolution as the specification words it: resolved at
call time with precedence explicit per-call option, then per-instance
setting, then the current value of the global default flag.  Stated from
the spec for comparison with the code's resolution. -/
def specDebugResolution (callTimeGlobal : Bool) (instanceArg : Option Bool)
    (callDebug : Option Bool) : Bool :=
  callDebug.getD (instanceArg.getD callTimeGlobal)

/-- A probe environment whose element no longer exists; used to build
concrete permanently-unstable runs. -/
def probeEnvGone : ProbeEnv :=
  { countResult := Except.ok 0, handleAcquired := false, evalOutcome := EvalOutcome.timeout }

/-- An iteration in which the visibility query answered false. -/
def iterInvisible : IterEnv :=
  { visible := false, probeEnv := probeEnvGone }

/-- An iteration in which the element is visible but its probe finds it
gone again (a permanently unstable element). -/
def iterUnstable : IterEnv :=
  { visible := true, probeEnv := probeEnvGone }

/-- A static visible element whose probe succeeds with identical samples. -/
def rectZero : Rect := { top := 0, left := 0, width := 10, height := 10 }

/-- A computed style with no animation and only the catch-all transition. -/
def styleStatic : ComputedStyle :=
  { animationName := "none", animationPlayState := "running",
    transitionProperty := "all", transitionDuration := "0s" }

/-- A completed evaluation whose two samples coincide and show no animation. -/
def sampleStatic : EvalSample :=
  { initialRect := rectZero, newRect := rectZero, style := styleStatic }

/-- A probe environment in which every collaborator succeeds and the element
is static. -/
def probeEnvStatic : ProbeEnv :=
  { countResult := Except.ok 1, handleAcquired := true,
    evalOutcome := EvalOutcome.ok sampleStatic }

/-- An iteration in which the element is visible and its probe finds it
static. -/
def iterStable : IterEnv :=
  { visible := true, probeEnv := probeEnvStatic }

lemma waitLoop_timeoutError_mem (timeout startTime : Int) (customFn : Option CustomFn) :
    ∀ (trace : List (Int × IterEnv)) (checkCount : Nat) (msg : String),
      waitLoop timeout startTime customFn checkCount trace = WaitResult.timeoutError msg →
      ∃ p ∈ trace, timeout ≤ p.1 - startTime := by
  intro trace
  induction trace with
  | nil => intro checkCount msg h; simp [waitLoop] at h
  | cons head rest ih =>
    intro checkCount msg h
    obtain ⟨t, env⟩ := head
    by_cases hlt : t - startTime < timeout
    · rw [waitLoop, if_pos hlt] at h
      by_cases ho : (runIteration customFn env).outcome
      · rw [if_pos ho] at h; exact absurd h (by simp)
      · rw [if_neg ho] at h
        obtain ⟨p, hp, hle⟩ := ih (checkCount + 1) msg h
        exact ⟨p, List.mem_cons_of_mem _ hp, hle⟩
    · exact ⟨(t, env), List.mem_cons_self _ _, le_of_not_lt hlt⟩

lemma waitLoop_success_mem (timeout startTime : Int) (customFn : Option CustomFn) :
    ∀ (trace : List (Int × IterEnv)) (checkCount n : Nat),
      waitLoop timeout startTime customFn checkCount trace = WaitResult.success n →
      ∃ p ∈ trace, p.1 - startTime < timeout ∧ (runIteration customFn p.2).outcome = true := by
  intro trace
  induction trace with
  | nil => intro checkCount n h; simp [waitLoop] at h
  | cons head rest ih =>
    intro checkCount n h
    obtain ⟨t, env⟩ := head
    by_cases hlt : t - startTime < timeout
    · rw [waitLoop, if_pos hlt] at h
      by_cases ho : (runIteration customFn env).outcome
      · exact ⟨(t, env), List.mem_cons_self _ _, hlt, ho⟩
      · rw [if_neg ho] at h
        obtain ⟨p, hp, hle, hout⟩ := ih (checkCount + 1) n h
        exact ⟨p, List.mem_cons_of_mem _ hp, hle, hout⟩
    · rw [waitLoop, if_neg hlt] at h
      exact absurd h (by simp)

lemma waitLoop_timeoutError_msg (timeout startTime : Int) (customFn : Option CustomFn) :
    ∀ (trace : List (Int × IterEnv)) (checkCount : Nat) (msg : String),
      waitLoop timeout startTime customFn checkCount trace = WaitResult.timeoutError msg →
      ∃ k : Nat, msg = timeoutMessage timeout k := by
  intro trace
  induction trace with
  | nil => intro checkCount msg h; simp [waitLoop] at h
  | cons head rest ih =>
    intro checkCount msg h
    obtain ⟨t, env⟩ := head
    by_cases hlt : t - startTime < timeout
    · rw [waitLoop, if_pos hlt] at h
      by_cases ho : (runIteration customFn env).outcome
      · rw [if_pos ho] at h; exact absurd h (by simp)
      · rw [if_neg ho] at h; exact ih (checkCount + 1) msg h
    · rw [waitLoop, if_neg hlt] at h
      exact ⟨checkCount, (WaitResult.timeoutError.injEq _ _ ▸ h.symm :)⟩

lemma waitLoop_timeoutError_bounded (timeout startTime B : Int) (customFn : Option CustomFn) :
    ∀ (trace : List (Int × IterEnv)) (checkCount : Nat) (msg : String),
      (∀ p, trace.head? = some p → p.1 - startTime < timeout + B) →
      List.Chain' (fun p q : Int × IterEnv => q.1 ≤ p.1 + B) trace →
      waitLoop timeout startTime customFn checkCount trace = WaitResult.timeoutError msg →
      ∃ p ∈ trace, timeout ≤ p.1 - startTime ∧ p.1 - startTime < timeout + B := by
  intro trace
  induction trace with
  | nil => intro checkCount msg _ _ h; simp [waitLoop] at h
  | cons head rest ih =>
    intro checkCount msg hhead hchain h
    obtain ⟨t, env⟩ := head
    by_cases hlt : t - startTime < timeout
    · rw [waitLoop, if_pos hlt] at h
      by_cases ho : (runIteration customFn env).outcome
      · rw [if_pos ho] at h; exact absurd h (by simp)
      · rw [if_neg ho] at h
        have hhead2 : ∀ p, rest.head? = some p → p.1 - startTime < timeout + B := by
          intro p hp
          cases rest with
          | nil => simp at hp
          | cons q rest2 =>
            simp only [List.head?_cons, Option.some.injEq] at hp
            subst hp
            have hrel : q.1 ≤ t + B := (List.chain'_cons.mp hchain).1
            omega
        have hchain2 : List.Chain' (fun p q : Int × IterEnv => q.1 ≤ p.1 + B) rest :=
          hchain.tail
        obtain ⟨p, hp, h1, h2⟩ := ih (checkCount + 1) msg hhead2 hchain2 h
        exact ⟨p, List.mem_cons_of_mem _ hp, h1, h2⟩
    · refine ⟨(t, env), List.mem_cons_self _ _, le_of_not_lt hlt, ?_⟩
      exact hhead (t, env) rfl

lemma runIteration_delegate (env : IterEnv) :
    (runIteration (some delegateFn) env).outcome = (runIteration none env).outcome := by
  by_cases hv : env.visible <;>
    simp [runIteration, hv, delegateFn, runCustom, defaultCheckWrapper]

lemma waitLoop_delegate (timeout startTime : Int) :
    ∀ (trace : List (Int × IterEnv)) (checkCount : Nat),
      waitLoop timeout startTime (some delegateFn) checkCount trace
        = waitLoop timeout startTime none checkCount trace := by
  intro trace
  induction trace with
  | nil => intro checkCount; rfl
  | cons head rest ih =>
    intro checkCount
    obtain ⟨t, env⟩ := head
    rw [waitLoop, waitLoop, runIteration_delegate]
    by_cases hlt : t - startTime < timeout
    · rw [if_pos hlt, if_pos hlt]
      by_cases ho : (runIteration none env).outcome
      · rw [if_pos ho, if_pos ho]
      · rw [if_neg ho, if_neg ho, ih]
    · rw [if_neg hlt, if_neg hlt]

/-- Claim C1: for every probe, hasActiveAnimation is true iff
(animationName is not "none" and animationPlayState is not "paused") or
(transitionProperty is neither "all" nor "none" and transitionDuration is
not "0s"), and this holds over the whole animation-name/play-state matrix
and the whole transition matrix of the specification. -/
theorem claim_C1 (an aps tp td : String) :
    (hasActiveAnimation an aps tp td = true ↔
      ((an ≠ "none" ∧ aps ≠ "paused") ∨ (tp ≠ "all" ∧ tp ≠ "none" ∧ td ≠ "0s")))
    ∧ (∀ a ∈ ["none", "x"], ∀ p ∈ ["running", "paused"],
        hasActiveAnimation a p "none" "0s" = (a != "none" && p != "paused"))
    ∧ (∀ t ∈ ["all", "none", "left"], ∀ d ∈ ["0s", "1.5s"],
        hasActiveAnimation "none" "running" t d
          = (t != "all" && t != "none" && d != "0s")) := by
  refine ⟨?_, by decide, by decide⟩
  simp [hasActiveAnimation, and_assoc]

/-- Claim C2: for every probe that completes its two samples,
positionChanged is true iff one of the four rect fields differs under exact
equality, the verdict's stable flag is the conjunction of the negations of
hasActiveAnimation and positionChanged, and the full diagnostic record is
attached to the verdict. -/
theorem claim_C2 (s : EvalSample) (r1 r2 : Rect) :
    (positionChanged r1 r2 = true ↔
      (r1.top ≠ r2.top ∨ r1.left ≠ r2.left ∨ r1.width ≠ r2.width ∨ r1.height ≠ r2.height))
    ∧ (evaluateStability s).stable
        = (!hasActiveAnimation s.style.animationName s.style.animationPlayState
              s.style.transitionProperty s.style.transitionDuration
            && !positionChanged s.initialRect s.newRect)
    ∧ (evaluateStability s).details = Details.sample
        { hasActiveAnimation := hasActiveAnimation s.style.animationName
            s.style.animationPlayState s.style.transitionProperty s.style.transitionDuration,
          animationName := s.style.animationName,
          animationPlayState := s.style.animationPlayState,
          transitionProperty := s.style.transitionProperty,
          transitionDuration := s.style.transitionDuration,
          positionChanged := positionChanged s.initialRect s.newRect,
          initialRect := s.initialRect,
          newRect := s.newRect } := by
  refine ⟨?_, rfl, rfl⟩
  simp [positionChanged, or_assoc]

/-- Claim C3: the loop throws the timeout error only from a condition check
that saw an elapsed time of at least the timeout; it returns success only
from an iteration admitted by a check that saw an elapsed time below the
timeout; and when consecutive condition checks are at most one retry
cadence plus probe budget B apart, the failing check's elapsed time is also
below timeout + B (bounded overshoot). -/
theorem claim_C3 (timeout startTime B : Int) (customFn : Option CustomFn)
    (checkCount n : Nat) (trace : List (Int × IterEnv)) (msg : String) :
    (waitLoop timeout startTime customFn checkCount trace = WaitResult.timeoutError msg →
      ∃ p ∈ trace, timeout ≤ p.1 - startTime)
    ∧ (waitLoop timeout startTime customFn checkCount trace = WaitResult.success n →
      ∃ p ∈ trace, p.1 - startTime < timeout ∧ (runIteration customFn p.2).outcome = true)
    ∧ ((∀ p, trace.head? = some p → p.1 - startTime < timeout + B) →
      List.Chain' (fun p q : Int × IterEnv => q.1 ≤ p.1 + B) trace →
      waitLoop timeout startTime customFn checkCount trace = WaitResult.timeoutError msg →
      ∃ p ∈ trace, timeout ≤ p.1 - startTime ∧ p.1 - startTime < timeout + B) :=
  ⟨waitLoop_timeoutError_mem timeout startTime customFn trace checkCount msg,
   waitLoop_success_mem timeout startTime customFn trace checkCount n,
   waitLoop_timeoutError_bounded timeout startTime B customFn trace checkCount msg⟩

/-- Witness for claim C3 at a concrete permanently-unstable run: a single
condition check at reading 200 with timeout 100 throws, and indeed 100 is
at most the elapsed 200. -/
theorem claim_C3_witness :
    ∃ p ∈ [((200 : Int), iterInvisible)], (100 : Int) ≤ p.1 - 0 :=
  (claim_C3 100 0 0 none 0 0 [(200, iterInvisible)] (timeoutMessage 100 0)).1 rfl

/-- Claim C4: the prober is a total function of its collaborator
environment — it never raises — and returns the three documented fallback
verdicts: exists false when the element count is zero, hasElementHandle
false when handle acquisition fails, and an error detail in every remaining
failure case — when the 2s evaluation race times out, when the evaluation
rejects with any other error, and when a collaborator throws. -/
theorem claim_C4 :
    (∀ (handleOk : Bool) (eo : EvalOutcome),
      isStable { countResult := Except.ok 0, handleAcquired := handleOk, evalOutcome := eo }
        = { stable := false, details := Details.notExists })
    ∧ (∀ (n : Nat) (eo : EvalOutcome),
      isStable { countResult := Except.ok (n + 1), handleAcquired := false, evalOutcome := eo }
        = { stable := false, details := Details.noHandle })
    ∧ (∀ (n : Nat),
      isStable { countResult := Except.ok (n + 1), handleAcquired := true,
                 evalOutcome := EvalOutcome.timeout }
        = { stable := false, details := Details.errorDetail "Error: Evaluate timeout" })
    ∧ (∀ (n : Nat) (msg : String),
      isStable { countResult := Except.ok (n + 1), handleAcquired := true,
                 evalOutcome := EvalOutcome.error msg }
        = { stable := false, details := Details.errorDetail msg })
    ∧ (∀ (msg : String) (handleOk : Bool) (eo : EvalOutcome),
      isStable { countResult := Except.error msg, handleAcquired := handleOk, evalOutcome := eo }
        = { stable := false, details := Details.errorDetail msg }) := by
  refine ⟨fun _ _ => rfl, fun n _ => by simp [isStable], fun n => by simp [isStable],
    fun n _ => by simp [isStable], fun _ _ _ => rfl⟩

/-- Claim C5: an iteration whose visibility query answered false invokes
neither the default probe nor a custom callback and cannot succeed, and a
successful wait returns only from an iteration whose visibility was true. -/
theorem claim_C5 (customFn : Option CustomFn) (env : IterEnv) (hv : env.visible = false)
    (timeout startTime : Int) (checkCount n : Nat) (trace : List (Int × IterEnv))
    (hs : waitLoop timeout startTime customFn checkCount trace = WaitResult.success n) :
    runIteration customFn env = { outcome := false, probeCalls := 0, customCalled := false }
    ∧ ∃ p ∈ trace, p.2.visible = true ∧ (runIteration customFn p.2).outcome = true := by
  refine ⟨by simp [runIteration, hv], ?_⟩
  obtain ⟨p, hp, _hlt, ho⟩ := waitLoop_success_mem timeout startTime customFn trace checkCount n hs
  cases hvb : p.2.visible with
  | false => simp [runIteration, hvb] at ho
  | true => exact ⟨p, hp, hvb, ho⟩

/-- Witness for claim C5: a concrete invisible iteration runs no check at
all, and a concrete successful run went through a visible iteration. -/
theorem claim_C5_witness :
    runIteration none iterInvisible
      = { outcome := false, probeCalls := 0, customCalled := false }
    ∧ ∃ p ∈ [((0 : Int), iterStable)], p.2.visible = true
        ∧ (runIteration none p.2).outcome = true :=
  claim_C5 none iterInvisible rfl 100 0 0 1 [(0, iterStable)] rfl

/-- Claim C6: with a custom callback supplied, a visible iteration's verdict
is exactly the boolean the callback returns against the default-check
thunk, the default probe runs once per thunk invocation and not otherwise,
an unconditionally-true callback makes the wait succeed on the first
admitted visible iteration, and the delegating callback reproduces the
built-in loop exactly. -/
theorem claim_C6 (f : CustomFn) (env envFirst : IterEnv) (hv : env.visible = true)
    (hvF : envFirst.visible = true) (timeout startTime tFirst : Int)
    (hin : tFirst - startTime < timeout) (rest trace : List (Int × IterEnv))
    (checkCount : Nat) :
    runIteration (some f) env
      = { outcome := (runCustom f (defaultCheckWrapper env.probeEnv)).1,
          probeCalls := (runCustom f (defaultCheckWrapper env.probeEnv)).2,
          customCalled := true }
    ∧ (∀ (b : Bool) (r : StabilityCheckResult), runCustom (CustomFn.ret b) r = (b, 0))
    ∧ (∀ (k : StabilityCheckResult → CustomFn) (r : StabilityCheckResult),
        (runCustom (CustomFn.callDefault k) r).2 = (runCustom (k r) r).2 + 1)
    ∧ waitLoop timeout startTime (some (CustomFn.ret true)) 0 ((tFirst, envFirst) :: rest)
        = WaitResult.success 1
    ∧ waitLoop timeout startTime (some delegateFn) checkCount trace
        = waitLoop timeout startTime none checkCount trace := by
  refine ⟨by simp [runIteration, hv], fun b r => rfl, fun k r => rfl, ?_,
    waitLoop_delegate timeout startTime trace checkCount⟩
  rw [waitLoop, if_pos hin]
  simp [runIteration, hvF, runCustom]

/-- Witness for claim C6 at concrete inputs: a visible static iteration, a
visible unstable first iteration admitted at reading 0 with timeout 100,
and the empty continuation trace. -/
theorem claim_C6_witness :
    runIteration (some (CustomFn.ret false)) iterStable
      = { outcome := (runCustom (CustomFn.ret false) (defaultCheckWrapper iterStable.probeEnv)).1,
          probeCalls := (runCustom (CustomFn.ret false) (defaultCheckWrapper iterStable.probeEnv)).2,
          customCalled := true }
    ∧ (∀ (b : Bool) (r : StabilityCheckResult), runCustom (CustomFn.ret b) r = (b, 0))
    ∧ (∀ (k : StabilityCheckResult → CustomFn) (r : StabilityCheckResult),
        (runCustom (CustomFn.callDefault k) r).2 = (runCustom (k r) r).2 + 1)
    ∧ waitLoop 100 0 (some (CustomFn.ret true)) 0 [((0 : Int), iterUnstable)]
        = WaitResult.success 1
    ∧ waitLoop 100 0 (some delegateFn) 0 []
        = waitLoop 100 0 none 0 [] :=
  claim_C6 (CustomFn.ret false) iterStable iterUnstable rfl rfl 100 0 0 (by decide) [] [] 0

/-- Counterexample to claim C7 as stated: in a run whose failing condition
check happens at elapsed time 170 with timeout 100, the thrown error's
message interpolates the configured timeout (100) and the check count, but
not the actual elapsed time (170) — source line 142 uses the timeout
variable, and the computed elapsedTime of line 140 only reaches the debug
log. -/
theorem claim_C7_counterexample :
    waitLoop 100 0 none 0 [((0 : Int), iterInvisible), (170, iterInvisible)]
      = WaitResult.timeoutError (timeoutMessage 100 1)
    ∧ timeoutMessage 100 1 = "Locator not stable after 100ms (1 checks)"
    ∧ ¬ List.IsInfix "170".data (timeoutMessage 100 1).data
    ∧ List.IsInfix "100".data (timeoutMessage 100 1).data :=
  ⟨rfl, rfl, by decide, by decide⟩

/-- Claim C7 amended: the user-visible timeout failure carries the
configured timeout value and the iteration count (checkCount); the
measured elapsed time is not part of the error. -/
theorem claim_C7 (timeout startTime : Int) (customFn : Option CustomFn)
    (checkCount : Nat) (trace : List (Int × IterEnv)) (msg : String)
    (h : waitLoop timeout startTime customFn checkCount trace = WaitResult.timeoutError msg) :
    ∃ k : Nat, msg = timeoutMessage timeout k :=
  waitLoop_timeoutError_msg timeout startTime customFn trace checkCount msg h

/-- Witness for claim C7 at a concrete timed-out run. -/
theorem claim_C7_witness :
    ∃ k : Nat, timeoutMessage 100 0 = timeoutMessage 100 k :=
  claim_C7 100 0 none 0 [(200, iterInvisible)] (timeoutMessage 100 0) rfl

/-- Counterexample to claim C8 as stated: an instance constructed while the
global default flag was false, with no explicit instance argument, keeps
debug mode false on a later call that omits the debug option even though
the global flag is true at call time — the code samples the global flag at
construction (source line 48), not at call time. -/
theorem claim_C8_counterexample :
    (waitForStable (StableLocator.construct false none)
        { timeout := none, debug := none, isStable := none } 0 []).1.debugMode = false
    ∧ specDebugResolution true none none = true
    ∧ (waitForStable (StableLocator.construct false none)
        { timeout := none, debug := none, isStable := none } 0 []).1.debugMode
        ≠ specDebugResolution true none none :=
  ⟨rfl, rfl, by decide⟩

/-- Claim C8 amended: the precedence explicit per-call option, then
per-instance setting, then global default holds, but the global default is
the flag's value at instance construction time (the constructor's default
argument), not its value at call time. -/
theorem claim_C8 (g b d : Bool) (st : StableLocator) (f : Option CustomFn)
    (ot : Option Int) (t0 : Int) (trace : List (Int × IterEnv)) :
    (waitForStable st { timeout := ot, debug := some d, isStable := f } t0 trace).1.debugMode = d
    ∧ (waitForStable (StableLocator.construct g (some b))
        { timeout := ot, debug := none, isStable := f } t0 trace).1.debugMode = b
    ∧ (StableLocator.construct g none).debugMode = g
    ∧ (waitForStable st { timeout := ot, debug := none, isStable := f } t0 trace).1.debugMode
        = st.debugMode :=
  ⟨rfl, rfl, rfl, rfl⟩

/-- Claim C9: an absent options.timeout yields an effective timeout of
30000 ms, and so does the falsy edge case options.timeout = 0; in both
cases waitForStable behaves exactly as with an explicit 30000. -/
theorem claim_C9 (st : StableLocator) (d : Option Bool) (f : Option CustomFn)
    (startTime : Int) (trace : List (Int × IterEnv)) :
    effectiveTimeout none = 30000
    ∧ effectiveTimeout (some 0) = 30000
    ∧ waitForStable st { timeout := none, debug := d, isStable := f } startTime trace
        = waitForStable st { timeout := some 30000, debug := d, isStable := f } startTime trace
    ∧ waitForStable st { timeout := some 0, debug := d, isStable := f } startTime trace
        = waitForStable st { timeout := some 30000, debug := d, isStable := f } startTime trace :=
  ⟨rfl, rfl, rfl, rfl⟩

/-- Claim C10: a call that passes an explicit debug option overwrites the
instance's debug-mode field, and every subsequent call that omits the
option uses that value rather than the one the instance was constructed
with. -/
theorem claim_C10 (c d : Bool) (hne : d ≠ c)
    (ot1 ot2 : Option Int) (f1 f2 : Option CustomFn) (t1 t2 : Int)
    (tr1 tr2 : List (Int × IterEnv)) :
    ((waitForStable { debugMode := c }
        { timeout := ot1, debug := some d, isStable := f1 } t1 tr1).1.debugMode = d)
    ∧ ((waitForStable
          (waitForStable { debugMode := c }
            { timeout := ot1, debug := some d, isStable := f1 } t1 tr1).1
          { timeout := ot2, debug := none, isStable := f2 } t2 tr2).1.debugMode = d)
    ∧ ((waitForStable
          (waitForStable { debugMode := c }
            { timeout := ot1, debug := some d, isStable := f1 } t1 tr1).1
          { timeout := ot2, debug := none, isStable := f2 } t2 tr2).1.debugMode ≠ c) :=
  ⟨rfl, rfl, hne⟩

/-- Witness for claim C10: constructed with debug mode off, a call passing
debug true flips the instance, and a subsequent option-less call still sees
true. -/
theorem claim_C10_witness :
    ((waitForStable { debugMode := false }
        { timeout := none, debug := some true, isStable := none } 0 []).1.debugMode = true)
    ∧ ((waitForStable
          (waitForStable { debugMode := false }
            { timeout := none, debug := some true, isStable := none } 0 []).1
          { timeout := none, debug := none, isStable := none } 0 []).1.debugMode = true)
    ∧ ((waitForStable
          (waitForStable { debugMode := false }
            { timeout := none, debug := some true, isStable := none } 0 []).1
          { timeout := none, debug := none, isStable := none } 0 []).1.debugMode ≠ false) :=
  claim_C10 false true (by decide) none none none none 0 0 [] []

/-- Witness for claim C1 at one concrete matrix cell: a named running
animation with no transition is an active animation. -/
theorem claim_C1_witness :
    hasActiveAnimation "x" "running" "none" "0s"
      = ("x" != "none" && "running" != "paused") :=
  (claim_C1 "x" "running" "none" "0s").2.1 "x" (by decide) "running" (by decide)

/-- Witness for claim C2 at the concrete static sample: its verdict's
stable flag is the conjunction of the negated animation flag and negated
geometry diff. -/
theorem claim_C2_witness :
    (evaluateStability sampleStatic).stable
      = (!hasActiveAnimation sampleStatic.style.animationName
            sampleStatic.style.animationPlayState
            sampleStatic.style.transitionProperty sampleStatic.style.transitionDuration
          && !positionChanged sampleStatic.initialRect sampleStatic.newRect) :=
  (claim_C2 sampleStatic rectZero rectZero).2.1
